import Mathlib

/-!
Verification of the doctr excerpt: the framework-availability shim
(file_utils.py) and the detection-model behaviours exercised by
test_models_detection_tf.py.  The shim is embedded directly from the
source; detection-side operations whose implementation is outside the
excerpt are modelled from the specification and marked as such.
-/

set_option autoImplicit false

namespace DocTR

/-! ## Availability shim (file_utils.py) -/

/-- Values of USE_TF / USE_TORCH treated as force-true (ENV_VARS_TRUE_VALUES). -/
def ENV_VARS_TRUE_VALUES : List String := ["1", "ON", "YES", "TRUE"]

/-- Force-true values together with AUTO (ENV_VARS_TRUE_AND_AUTO_VALUES). -/
def ENV_VARS_TRUE_AND_AUTO_VALUES : List String := ENV_VARS_TRUE_VALUES ++ ["AUTO"]

/-- ASCII uppercase of one character, as str.upper() acts on the flag
values in play. -/
def upperChar (c : Char) : Char :=
  if c.isLower then Char.ofNat (c.toNat - 32) else c

/-- ASCII uppercase of a string (str.upper() on the ASCII flag values). -/
def pyUpper (s : String) : String := String.mk (s.data.map upperChar)

/-- Reading an environment flag: os.environ.get(name, "AUTO").upper(). -/
def normFlag (raw : Option String) : String := pyUpper (raw.getD "AUTO")

/-- State of the installed packages the shim inspects: whether a module spec
is found for torch / tensorflow, and the metadata version recorded for each
distribution name (none models importlib PackageNotFoundError). -/
structure PkgEnv where
  torchSpec : Bool
  tfSpec : Bool
  versions : String → Option String

/-- Digit characters to a natural number, as decimal. -/
def digitsToNat (cs : List Char) : Nat :=
  cs.foldl (fun acc c => acc * 10 + (c.toNat - 48)) 0

/-- Surrounding whitespace stripped from a character list. -/
def stripChars (cs : List Char) : List Char :=
  ((cs.dropWhile Char.isWhitespace).reverse.dropWhile Char.isWhitespace).reverse

/-- Python int(s) on a string: optional surrounding whitespace, optional
sign, then a nonempty run of decimal digits; anything else raises
ValueError, modelled as none. -/
def pyInt (s : String) : Option Int :=
  let t := stripChars s.data
  let neg := t.headD ' ' == '-'
  let core := if t.headD ' ' == '-' || t.headD ' ' == '+' then t.drop 1 else t
  if core.length > 0 && core.all Char.isDigit then
    if neg then some (-(Int.ofNat (digitsToNat core)))
    else some (Int.ofNat (digitsToNat core))
  else none

/-- The candidate distribution names probed for TensorFlow metadata. -/
def tfCandidates : List String :=
  ["tensorflow", "tensorflow-cpu", "tensorflow-gpu", "tf-nightly",
   "tf-nightly-cpu", "tf-nightly-gpu", "intel-tensorflow",
   "tensorflow-rocm", "tensorflow-macos"]

/-- The for-loop over candidates: the first distribution whose metadata
lookup succeeds yields _tf_version. -/
def firstTfVersion (env : PkgEnv) : Option String :=
  tfCandidates.findSome? env.versions

/-- Characters before the first dot (the whole list when no dot occurs). -/
def takeUntilDot : List Char → List Char
  | [] => []
  | c :: cs => if c == '.' then [] else c :: takeUntilDot cs

/-- First dot-separated component of a version string: v.split('.')[0]. -/
def majorComponent (v : String) : String :=
  String.mk (takeUntilDot v.data)

/-- Errors that can abort module initialization in file_utils.py. -/
inductive ImportFailure
  | valueError
  | moduleNotFoundError
deriving DecidableEq, Repr

/-- The _torch_available computation (file_utils.py lines 28-38): probed
only when USE_TORCH allows and USE_TF is not force-true; then torch must
have an importable spec and installed metadata. -/
def torchAvailable (useTF useTorch : String) (env : PkgEnv) : Bool :=
  if useTorch ∈ ENV_VARS_TRUE_AND_AUTO_VALUES ∧ useTF ∉ ENV_VARS_TRUE_VALUES then
    env.torchSpec && (env.versions "torch").isSome
  else
    false

/-- The version gate of file_utils.py lines 64-69 on one version string:
int(v.split('.')[0]) < 2 disables the backend; a non-numeric first
component makes int() raise ValueError. -/
def majorGate (v : String) : Except ImportFailure Bool :=
  match pyInt (majorComponent v) with
  | none => Except.error ImportFailure.valueError
  | some n => if n < 2 then Except.ok false else Except.ok true

/-- The version gate applied to the outcome of the candidate loop:
_tf_available is false when no candidate had metadata. -/
def tfVersionGate : Option String → Except ImportFailure Bool
  | none => Except.ok false
  | some v => majorGate v

/-- The _tf_available computation (file_utils.py lines 41-72): probed only
when USE_TF allows and USE_TORCH is not force-true; then tensorflow must
have an importable spec, one of the candidate distributions must have
metadata, and int(version.split('.')[0]) must be at least 2.  The int()
conversion can raise ValueError, which propagates. -/
def tfAvailable (useTF useTorch : String) (env : PkgEnv) : Except ImportFailure Bool :=
  if useTF ∈ ENV_VARS_TRUE_AND_AUTO_VALUES ∧ useTorch ∉ ENV_VARS_TRUE_VALUES then
    if env.tfSpec then tfVersionGate (firstTfVersion env)
    else Except.ok false
  else
    Except.ok false

/-- Module initialization of file_utils.py: normalize the two flags,
compute _torch_available and _tf_available, and raise ModuleNotFoundError
when neither backend is available.  On success the pair
(is_torch_available(), is_tf_available()) is returned. -/
def initFileUtils (rawTF rawTorch : Option String) (env : PkgEnv) :
    Except ImportFailure (Bool × Bool) :=
  let useTF := normFlag rawTF
  let useTorch := normFlag rawTorch
  let torch := torchAvailable useTF useTorch env
  match tfAvailable useTF useTorch env with
  | Except.error e => Except.error e
  | Except.ok tfA =>
    if torch = false ∧ tfA = false then
      Except.error ImportFailure.moduleNotFoundError
    else
      Except.ok (torch, tfA)

/-! ## Detection-side operations

The implementations of erode/dilate, target validation, prediction
postprocessing and the DetectionPredictor live outside the excerpt (only
their tests are in src/), so they are modelled from the specification. -/

/-- Error classes raised by the detection pipeline. -/
inductive ValFailure
  | assertionError
  | valueError
deriving DecidableEq, Repr

/-- Modelled from the spec: kernel offsets of a size-k morphological
window centred on the output pixel (missing implementation
doctr.models.detection._utils). -/
def offs (k : Nat) : List Int :=
  (List.range k).map (fun t => (t : Int) - ((k - 1) / 2 : Nat))

/-- Modelled from the spec: reading a single-channel H x W map with
out-of-bounds neighbours treated as background 0 (zero padding). -/
def padded (H W : Nat) (m : Nat → Nat → Bool) (i j : Int) : Bool :=
  if 0 ≤ i ∧ i < (H : Int) ∧ 0 ≤ j ∧ j < (W : Int) then
    m i.toNat j.toNat
  else
    false

/-- Modelled from the spec: erosion with kernel size k on a single-channel
H x W map — an output pixel is 1 only if every pixel in its kernel
neighbourhood is 1, out-of-bounds neighbours counting as 0 (missing
implementation doctr.models.detection._utils.erode). -/
def erode (H W k : Nat) (m : Nat → Nat → Bool) (i j : Nat) : Bool :=
  (offs k).all fun di => (offs k).all fun dj =>
    padded H W m ((i : Int) + di) ((j : Int) + dj)

/-- Modelled from the spec: dilation with kernel size k on a single-channel
H x W map — an output pixel is 1 if any pixel in its kernel neighbourhood
is 1 (missing implementation doctr.models.detection._utils.dilate). -/
def dilate (H W k : Nat) (m : Nat → Nat → Bool) (i j : Nat) : Bool :=
  (offs k).any fun di => (offs k).any fun dj =>
    padded H W m ((i : Int) + di) ((j : Int) + dj)

/-- The 3 x 3 map that is all zeros except a 1 at the centre, as built by
test_erode / test_dilate. -/
def centerMap (i j : Nat) : Bool := i == 1 && j == 1

/-- Dtype of a numpy target array, as far as validation observes it. -/
inductive DType
  | uint8
  | float32
deriving DecidableEq, Repr

/-- A per-image ground-truth target array: a dtype and a list of boxes,
each a list of coordinates (4 for axis-aligned boxes). -/
structure TargetArr where
  dtype : DType
  boxes : List (List ℚ)

/-- Modelled from the spec: geometric validity of one axis-aligned box
[xmin, ymin, xmax, ymax] — all coordinates in [0,1], xmin < xmax and
ymin < ymax. -/
def boxGeomOk (b : List ℚ) : Bool :=
  match b with
  | [xmin, ymin, xmax, ymax] =>
    decide (0 ≤ xmin ∧ xmin < xmax ∧ xmax ≤ 1 ∧ 0 ≤ ymin ∧ ymin < ymax ∧ ymax ≤ 1)
  | _ => false

/-- Modelled from the spec: target validation performed by every detection
model on each target array (missing model implementations in
doctr.models.detection) — a non-float dtype fails with an assertion-class
error, a float array with an out-of-range or inverted box fails with a
value-class error. -/
def validateTarget (t : TargetArr) : Except ValFailure Unit :=
  if t.dtype ≠ DType.float32 then
    Except.error ValFailure.assertionError
  else if t.boxes.all boxGeomOk then
    Except.ok ()
  else
    Except.error ValFailure.valueError

/-- Validation of a batch of target arrays, failing at the first bad one. -/
def validateTargets : List TargetArr → Except ValFailure Unit
  | [] => Except.ok ()
  | t :: ts =>
    match validateTarget t with
    | Except.ok _ => validateTargets ts
    | Except.error e => Except.error e

/-- The detection architectures exercised by the test suite. -/
inductive Arch
  | db_resnet50
  | db_mobilenet_v3_large
  | linknet_resnet18
  | linknet_resnet34
  | linknet_resnet50
deriving DecidableEq, Repr

/-- Modelled from the spec: a training-mode call of a detection model on a
batch of targets — every architecture validates the targets at the call
and raises there on bad input (loss and map computation are delegated to
the tensor framework and out of scope). -/
def detectionModelCall (_a : Arch) (targets : List TargetArr) :
    Except ValFailure Unit :=
  validateTargets targets

/-- A raw candidate box emitted by a model before postprocessing:
coordinates and a score, unconstrained. -/
structure RawBox where
  xmin : ℚ
  ymin : ℚ
  xmax : ℚ
  ymax : ℚ
  score : ℚ
deriving DecidableEq, Repr

/-- A predicted box [xmin, ymin, xmax, ymax, score]. -/
structure PredBox where
  xmin : ℚ
  ymin : ℚ
  xmax : ℚ
  ymax : ℚ
  score : ℚ
deriving DecidableEq, Repr

/-- Clipping a value to [0, 1]. -/
def clip01 (x : ℚ) : ℚ := max 0 (min 1 x)

/-- Modelled from the spec: clamping every field of a candidate box to the
normalized range [0, 1]. -/
def clampBox (b : RawBox) : PredBox :=
  ⟨clip01 b.xmin, clip01 b.ymin, clip01 b.xmax, clip01 b.ymax, clip01 b.score⟩

/-- Boxes kept by postprocessing: strictly positive extent on both axes. -/
def keepBox (b : PredBox) : Bool :=
  decide (b.xmin < b.xmax ∧ b.ymin < b.ymax)

/-- Modelled from the spec: postprocessing of raw model candidates into
predicted boxes satisfying the documented invariant (missing detection
postprocessor implementation): coordinates and score are clamped to [0,1]
and degenerate boxes are discarded. -/
def postprocessBoxes (raw : List RawBox) : List PredBox :=
  (raw.map clampBox).filter keepBox

/-- A page image, observed through its numpy shape. -/
structure Image where
  shape : List Nat
deriving DecidableEq, Repr

/-- Modelled from the spec: shape conformance checked by the PreProcessor —
a page image must be a rank-3 H x W x 3 pixel array. -/
def conformingShape (s : List Nat) : Bool :=
  match s with
  | [_, _, c] => c == 3
  | _ => false

/-- Modelled from the spec: the DetectionPredictor pipeline (missing
doctr.models.detection.predictor) — every input image's shape is validated
before any model computation; on any mismatch a value-class error is
raised and no partial results are returned, otherwise the model runs on
each page and its candidates are postprocessed into one result set per
image. -/
def detectionPredictor (model : Image → List RawBox) (pages : List Image) :
    Except ValFailure (List (List PredBox)) :=
  if pages.all (fun p => conformingShape p.shape) then
    Except.ok (pages.map (fun p => postprocessBoxes (model p)))
  else
    Except.error ValFailure.valueError

/-! ## Concrete package environments used as witnesses -/

/-- Both frameworks installed, every distribution at version 2.8.0. -/
def envFull : PkgEnv := ⟨true, true, fun _ => some "2.8.0"⟩

/-- TensorFlow installed at version 1.15.0 (below the required major 2). -/
def env115 : PkgEnv :=
  ⟨true, true, fun s => if s = "tensorflow" then some "1.15.0" else none⟩

/-- Torch installed normally, TensorFlow installed with a version string
whose first dot-separated component is not a decimal integer. -/
def envBadVer : PkgEnv :=
  ⟨true, true, fun s =>
    if s = "torch" then some "1.12.0"
    else if s = "tensorflow" then some "v2.1.0"
    else none⟩

/-! ## Theorems -/

/-- C1: for every pair of USE_TF / USE_TORCH values (defaulting to AUTO,
uppercased), a backend's availability can only be probed when its own flag
is in the allow set and the other flag is not force-true; in every other
case that backend's availability boolean is false regardless of the
installed packages. -/
theorem backend_probe_gate (rawTF rawTorch : Option String) (env : PkgEnv) :
    (¬(normFlag rawTorch ∈ ENV_VARS_TRUE_AND_AUTO_VALUES ∧
        normFlag rawTF ∉ ENV_VARS_TRUE_VALUES) →
      torchAvailable (normFlag rawTF) (normFlag rawTorch) env = false) ∧
    (¬(normFlag rawTF ∈ ENV_VARS_TRUE_AND_AUTO_VALUES ∧
        normFlag rawTorch ∉ ENV_VARS_TRUE_VALUES) →
      tfAvailable (normFlag rawTF) (normFlag rawTorch) env = Except.ok false) := by
  constructor
  · intro h
    unfold torchAvailable
    rw [if_neg h]
  · intro h
    unfold tfAvailable
    rw [if_neg h]

/-- Witness for C1: with USE_TF=1 and USE_TORCH=yes, both backends are
disabled even though every package is installed. -/
theorem backend_probe_gate_witness :
    torchAvailable (normFlag (some "1")) (normFlag (some "yes")) envFull = false ∧
    tfAvailable (normFlag (some "1")) (normFlag (some "yes")) envFull = Except.ok false :=
  ⟨(backend_probe_gate (some "1") (some "yes") envFull).1 (by decide),
   (backend_probe_gate (some "1") (some "yes") envFull).2 (by decide)⟩

/-- C2: when the TF flag allows selection and the Torch flag is not
force-true, TF availability is true only if the tensorflow spec is
importable, some candidate distribution has metadata, and the parsed major
version is at least 2; a major version below 2 forces it to false. -/
theorem tf_availability_conditions (useTF useTorch : String) (env : PkgEnv)
    (hsel : useTF ∈ ENV_VARS_TRUE_AND_AUTO_VALUES ∧ useTorch ∉ ENV_VARS_TRUE_VALUES) :
    (tfAvailable useTF useTorch env = Except.ok true →
      env.tfSpec = true ∧ ∃ v n, firstTfVersion env = some v ∧
        pyInt (majorComponent v) = some n ∧ 2 ≤ n) ∧
    (∀ v n, env.tfSpec = true → firstTfVersion env = some v →
      pyInt (majorComponent v) = some n → n < 2 →
      tfAvailable useTF useTorch env = Except.ok false) := by
  constructor
  · intro h
    unfold tfAvailable at h
    rw [if_pos hsel] at h
    by_cases hspec : env.tfSpec = true
    · rw [if_pos hspec] at h
      cases hv : firstTfVersion env with
      | none => rw [hv] at h; simp [tfVersionGate] at h
      | some v =>
        rw [hv] at h
        cases hn : pyInt (majorComponent v) with
        | none => simp [tfVersionGate, majorGate, hn] at h
        | some n =>
          by_cases hlt : n < 2
          · simp [tfVersionGate, majorGate, hn, hlt] at h
          · exact ⟨hspec, v, n, hv ▸ rfl, hn, le_of_not_lt hlt⟩
    · rw [if_neg hspec] at h
      simp at h
  · intro v n hspec hv hn hlt
    unfold tfAvailable
    rw [if_pos hsel, if_pos hspec, hv]
    simp [tfVersionGate, majorGate, hn, hlt]

/-- Witness for C2: with both flags AUTO and TensorFlow 1.15.0 installed,
the TF availability boolean is false. -/
theorem tf_availability_conditions_witness :
    tfAvailable "AUTO" "AUTO" env115 = Except.ok false :=
  (tf_availability_conditions "AUTO" "AUTO" env115 (by decide)).2
    "1.15.0" 1 rfl rfl (by decide) (by decide)

/-- C3: when the selection logic completes with neither backend available,
module initialization fails with ModuleNotFoundError; consequently any
successful import leaves at least one of the two availability booleans
true. -/
theorem no_backend_fatal (rawTF rawTorch : Option String) (env : PkgEnv) :
    (torchAvailable (normFlag rawTF) (normFlag rawTorch) env = false →
      tfAvailable (normFlag rawTF) (normFlag rawTorch) env = Except.ok false →
      initFileUtils rawTF rawTorch env = Except.error ImportFailure.moduleNotFoundError) ∧
    (∀ t f, initFileUtils rawTF rawTorch env = Except.ok (t, f) →
      t = true ∨ f = true) := by
  constructor
  · intro h1 h2
    simp only [initFileUtils]
    rw [h2]
    simp [h1]
  · intro t f h
    simp only [initFileUtils] at h
    cases htf : tfAvailable (normFlag rawTF) (normFlag rawTorch) env with
    | error e => rw [htf] at h; simp at h
    | ok tfA =>
      rw [htf] at h
      by_cases hboth : torchAvailable (normFlag rawTF) (normFlag rawTorch) env = false ∧ tfA = false
      · simp [hboth] at h
      · simp [hboth] at h
        cases t <;> cases f <;> simp_all

/-- Witness for C3: with USE_TF=1 and USE_TORCH=1 both backends are
excluded, so module import raises ModuleNotFoundError even with every
package installed. -/
theorem no_backend_fatal_witness :
    initFileUtils (some "1") (some "1") envFull =
      Except.error ImportFailure.moduleNotFoundError :=
  (no_backend_fatal (some "1") (some "1") envFull).1 rfl rfl

/-- C10: when the TF backend is probed and the found version string's first
dot-separated component is not a decimal integer, module import fails with
the uncaught ValueError from int(), not with backend selection and not
with the documented ModuleNotFoundError. -/
theorem tf_version_parse_crash (rawTF rawTorch : Option String) (env : PkgEnv) (v : String)
    (hsel : normFlag rawTF ∈ ENV_VARS_TRUE_AND_AUTO_VALUES ∧
      normFlag rawTorch ∉ ENV_VARS_TRUE_VALUES)
    (hspec : env.tfSpec = true)
    (hv : firstTfVersion env = some v)
    (hbad : pyInt (majorComponent v) = none) :
    initFileUtils rawTF rawTorch env = Except.error ImportFailure.valueError := by
  have htf : tfAvailable (normFlag rawTF) (normFlag rawTorch) env =
      Except.error ImportFailure.valueError := by
    unfold tfAvailable
    rw [if_pos hsel, if_pos hspec, hv]
    simp [tfVersionGate, majorGate, hbad]
  simp only [initFileUtils]
  rw [htf]

/-- Witness for C10: with default AUTO flags, torch 1.12.0 installed and a
tensorflow version string of v2.1.0, import raises the ValueError. -/
theorem tf_version_parse_crash_witness :
    initFileUtils none none envBadVer = Except.error ImportFailure.valueError :=
  tf_version_parse_crash none none envBadVer "v2.1.0"
    (by decide) rfl rfl (by decide)

/-! ## Morphology theorems -/

/-- C6: erode with kernel size 3 wipes out the single centre pixel of a
3 x 3 map, and in general an eroded pixel is 1 exactly when every pixel of
its kernel neighbourhood (out-of-bounds neighbours counting as 0) is 1. -/
theorem erode_center_and_characterization :
    (∀ i j : Fin 3, erode 3 3 3 centerMap i.val j.val = false) ∧
    (∀ (H W k : Nat) (m : Nat → Nat → Bool) (i j : Nat),
      erode H W k m i j = true ↔
        ∀ di ∈ offs k, ∀ dj ∈ offs k,
          padded H W m ((i : Int) + di) ((j : Int) + dj) = true) := by
  constructor
  · decide
  · intro H W k m i j
    simp [erode, List.all_eq_true]

/-- Witness for C6: the centre pixel itself is eroded away. -/
theorem erode_center_witness :
    erode 3 3 3 centerMap (1 : Fin 3).val (1 : Fin 3).val = false :=
  erode_center_and_characterization.1 1 1

/-- C7: dilate with kernel size 3 grows the single centre pixel of a 3 x 3
map to the full map, and in general a dilated pixel is 1 exactly when some
pixel of its kernel neighbourhood is 1. -/
theorem dilate_center_and_characterization :
    (∀ i j : Fin 3, dilate 3 3 3 centerMap i.val j.val = true) ∧
    (∀ (H W k : Nat) (m : Nat → Nat → Bool) (i j : Nat),
      dilate H W k m i j = true ↔
        ∃ di ∈ offs k, ∃ dj ∈ offs k,
          padded H W m ((i : Int) + di) ((j : Int) + dj) = true) := by
  constructor
  · decide
  · intro H W k m i j
    simp [dilate, List.any_eq_true]

/-- Witness for C7: the corner pixel is reached by the dilation. -/
theorem dilate_center_witness :
    dilate 3 3 3 centerMap (0 : Fin 3).val (0 : Fin 3).val = true :=
  dilate_center_and_characterization.1 0 0

/-! ## Target-validation theorems -/

/-- C4: for every detection architecture, a training-mode call on the
integer-dtype target [[0,0,1,1]] raises the assertion-class error and a
call on float targets with out-of-range or inverted coordinates raises the
value-class error; in general any non-float target array fails the
assertion check and any float target array containing a geometrically
invalid box fails the value check. -/
theorem target_validation_errors (a : Arch) :
    detectionModelCall a
      [⟨DType.uint8, [[0, 0, 1, 1]]⟩, ⟨DType.uint8, [[0, 0, 1, 1]]⟩] =
      Except.error ValFailure.assertionError ∧
    detectionModelCall a
      [⟨DType.float32, [[0, 0, mkRat 3 2, mkRat 3 2]]⟩, ⟨DType.float32, [[mkRat (-1) 5, mkRat (-3) 10, 1, 1]]⟩] =
      Except.error ValFailure.valueError ∧
    (∀ t : TargetArr, t.dtype ≠ DType.float32 →
      validateTarget t = Except.error ValFailure.assertionError) ∧
    (∀ t : TargetArr, t.dtype = DType.float32 →
      (∃ b ∈ t.boxes, boxGeomOk b = false) →
      validateTarget t = Except.error ValFailure.valueError) := by
  refine ⟨rfl, rfl, ?_, ?_⟩
  · intro t h
    unfold validateTarget
    rw [if_pos h]
  · intro t hf hbad
    unfold validateTarget
    rw [if_neg (by simp [hf])]
    have hall : t.boxes.all boxGeomOk = false := by
      rcases hbad with ⟨b, hb, hbox⟩
      by_contra hne
      have := List.all_eq_true.mp (Bool.of_not_eq_false hne) b hb
      rw [hbox] at this
      cases this
    rw [if_neg (by simp [hall])]

/-- Witness for C4: the db_resnet50 call on the uint8 target raises the
assertion-class error, and the general float rule applies to the
out-of-range box [[0,0,3/2,3/2]]. -/
theorem target_validation_errors_witness :
    detectionModelCall Arch.db_resnet50
      [⟨DType.uint8, [[0, 0, 1, 1]]⟩, ⟨DType.uint8, [[0, 0, 1, 1]]⟩] =
      Except.error ValFailure.assertionError ∧
    validateTarget ⟨DType.float32, [[0, 0, mkRat 3 2, mkRat 3 2]]⟩ =
      Except.error ValFailure.valueError :=
  ⟨(target_validation_errors Arch.db_resnet50).1,
   (target_validation_errors Arch.db_resnet50).2.2.2
     ⟨DType.float32, [[0, 0, mkRat 3 2, mkRat 3 2]]⟩ rfl
     ⟨[0, 0, mkRat 3 2, mkRat 3 2], by simp, by decide⟩⟩

/-! ## Predictor theorems -/

/-- A fixed model used in predictor witnesses. -/
def boxModel : Image → List RawBox := fun _ => [⟨mkRat 1 4, mkRat 1 4, mkRat 3 4, mkRat 3 4, mkRat 1 2⟩]

/-- Two conforming page images, as rendered from the two-page mock PDF. -/
def pages2 : List Image := [⟨[600, 800, 3]⟩, ⟨[600, 800, 3]⟩]

/-- The non-conforming 4-dimensional uint8 page of shape (1, 256, 512, 3). -/
def badPage : Image := ⟨[1, 256, 512, 3]⟩

/-- C8: the predictor returns exactly one result set per page when every
page image has a conforming shape, and raises the value-class error
(returning no partial results) as soon as some page image does not. -/
theorem predictor_batch_and_shape (model : Image → List RawBox) (pages : List Image) :
    ((∀ p ∈ pages, conformingShape p.shape = true) →
      ∃ out, detectionPredictor model pages = Except.ok out ∧
        out.length = pages.length) ∧
    ((∃ p ∈ pages, conformingShape p.shape = false) →
      detectionPredictor model pages = Except.error ValFailure.valueError) := by
  constructor
  · intro h
    refine ⟨pages.map (fun p => postprocessBoxes (model p)), ?_, List.length_map _ _⟩
    unfold detectionPredictor
    rw [if_pos (List.all_eq_true.mpr h)]
  · rintro ⟨p, hp, hbad⟩
    unfold detectionPredictor
    have hall : pages.all (fun q => conformingShape q.shape) = false := by
      by_contra hne
      have := List.all_eq_true.mp (Bool.of_not_eq_false hne) p hp
      rw [hbad] at this
      cases this
    rw [if_neg (by simp [hall])]

/-- Witness for C8: two conforming pages yield two result sets and the
(1, 256, 512, 3) page raises the value-class error. -/
theorem predictor_batch_and_shape_witness :
    (∃ out, detectionPredictor boxModel pages2 = Except.ok out ∧
      out.length = pages2.length) ∧
    detectionPredictor boxModel [badPage] = Except.error ValFailure.valueError :=
  ⟨(predictor_batch_and_shape boxModel pages2).1 (by decide),
   (predictor_batch_and_shape boxModel [badPage]).2
     ⟨badPage, by simp, by decide⟩⟩

/-- Bounds of the clipping function. -/
theorem clip01_bounds (x : ℚ) : 0 ≤ clip01 x ∧ clip01 x ≤ 1 :=
  ⟨le_max_left 0 _, max_le (by norm_num) (min_le_left 1 x)⟩

/-- Every box surviving postprocessing satisfies the predicted-box
invariant. -/
theorem postprocess_sound (raw : List RawBox) :
    ∀ b ∈ postprocessBoxes raw,
      0 ≤ b.xmin ∧ b.xmin < b.xmax ∧ b.xmax ≤ 1 ∧
      0 ≤ b.ymin ∧ b.ymin < b.ymax ∧ b.ymax ≤ 1 ∧
      0 ≤ b.score ∧ b.score ≤ 1 := by
  intro b hb
  rw [postprocessBoxes, List.mem_filter] at hb
  obtain ⟨hmem, hkeep⟩ := hb
  obtain ⟨r, _, hr⟩ := List.mem_map.mp hmem
  simp only [keepBox, decide_eq_true_eq] at hkeep
  obtain ⟨hx, hy⟩ := hkeep
  subst hr
  exact ⟨(clip01_bounds _).1, hx, (clip01_bounds _).2,
    (clip01_bounds _).1, hy, (clip01_bounds _).2,
    (clip01_bounds _).1, (clip01_bounds _).2⟩

/-- C9: every predicted box in every result set returned by the predictor
is a 5-tuple [xmin, ymin, xmax, ymax, score] with xmin < xmax, ymin < ymax,
all four spatial coordinates in [0,1] and score in [0,1]. -/
theorem predicted_box_invariant (model : Image → List RawBox) (pages : List Image)
    (out : List (List PredBox))
    (hok : detectionPredictor model pages = Except.ok out) :
    ∀ res ∈ out, ∀ b ∈ res,
      0 ≤ b.xmin ∧ b.xmin < b.xmax ∧ b.xmax ≤ 1 ∧
      0 ≤ b.ymin ∧ b.ymin < b.ymax ∧ b.ymax ≤ 1 ∧
      0 ≤ b.score ∧ b.score ≤ 1 := by
  intro res hres b hb
  unfold detectionPredictor at hok
  by_cases hall : pages.all (fun p => conformingShape p.shape) = true
  · rw [if_pos hall] at hok
    have hout : out = pages.map (fun p => postprocessBoxes (model p)) :=
      (Except.ok.inj hok).symm
    subst hout
    obtain ⟨p, _, hp⟩ := List.mem_map.mp hres
    exact postprocess_sound (model p) b (hp ▸ hb)
  · rw [if_neg (by simp [Bool.of_not_eq_true hall])] at hok
    cases hok

/-- Witness for C9: a concrete in-range box returned on a conforming page
satisfies every clause of the invariant. -/
theorem predicted_box_invariant_witness :
    0 ≤ (⟨mkRat 1 4, mkRat 1 4, mkRat 3 4, mkRat 3 4, mkRat 1 2⟩ : PredBox).xmin ∧
    (⟨mkRat 1 4, mkRat 1 4, mkRat 3 4, mkRat 3 4, mkRat 1 2⟩ : PredBox).xmin < (⟨mkRat 1 4, mkRat 1 4, mkRat 3 4, mkRat 3 4, mkRat 1 2⟩ : PredBox).xmax ∧
    (⟨mkRat 1 4, mkRat 1 4, mkRat 3 4, mkRat 3 4, mkRat 1 2⟩ : PredBox).xmax ≤ 1 ∧
    0 ≤ (⟨mkRat 1 4, mkRat 1 4, mkRat 3 4, mkRat 3 4, mkRat 1 2⟩ : PredBox).ymin ∧
    (⟨mkRat 1 4, mkRat 1 4, mkRat 3 4, mkRat 3 4, mkRat 1 2⟩ : PredBox).ymin < (⟨mkRat 1 4, mkRat 1 4, mkRat 3 4, mkRat 3 4, mkRat 1 2⟩ : PredBox).ymax ∧
    (⟨mkRat 1 4, mkRat 1 4, mkRat 3 4, mkRat 3 4, mkRat 1 2⟩ : PredBox).ymax ≤ 1 ∧
    0 ≤ (⟨mkRat 1 4, mkRat 1 4, mkRat 3 4, mkRat 3 4, mkRat 1 2⟩ : PredBox).score ∧
    (⟨mkRat 1 4, mkRat 1 4, mkRat 3 4, mkRat 3 4, mkRat 1 2⟩ : PredBox).score ≤ 1 :=
  predicted_box_invariant boxModel [⟨[600, 800, 3]⟩]
    [[⟨mkRat 1 4, mkRat 1 4, mkRat 3 4, mkRat 3 4, mkRat 1 2⟩]] rfl
    [⟨mkRat 1 4, mkRat 1 4, mkRat 3 4, mkRat 3 4, mkRat 1 2⟩] (by simp)
    ⟨mkRat 1 4, mkRat 1 4, mkRat 3 4, mkRat 3 4, mkRat 1 2⟩ (by simp)

end DocTR
